import Mathlib

/-!
Shallow embedding of the Flask gateway in src/app.py: a three-route HTTP
facade (index, set, get) over a Redis key-value store. Request bodies are
parsed JSON objects; the store is modelled as an association list whose
entries carry the exact arguments passed to the client's set operation.
-/

/-- JSON-style values as they appear in a parsed request body and in the
store: Python handles them as objects, so strings, integers, booleans and
None are all possible field values. -/
inductive JVal where
  | str (s : String)
  | int (n : Int)
  | bool (b : Bool)
  | null
deriving DecidableEq

/-- Python truthiness of a value, as tested by the `not` in line 33 of
src/app.py: the empty string, zero, False and None are falsy. -/
def JVal.truthy : JVal → Bool
  | .str s => s != ""
  | .int n => n != 0
  | .bool b => b
  | .null => false

/-- Python str of a value, as interpolated by the f-string in line 36 of
src/app.py. -/
def JVal.pyStr : JVal → String
  | .str s => s
  | .int n => toString n
  | .bool b => if b then "True" else "False"
  | .null => "None"

/-- Python identity test against the singleton True object: only the
boolean True is the object True; a str never is, whatever its text. -/
def JVal.isTrueObject : JVal → Bool
  | .bool b => b
  | _ => false

/-- A parsed JSON object body, as Flask's request.json yields it. -/
abbrev ReqBody := List (String × JVal)

/-- Python request.json.get(name): the field's value, or None when the
field is absent from the body. -/
def jsonGet (body : ReqBody) (name : String) : Option JVal :=
  (List.find? (fun p => p.1 == name) body).map (fun p => p.2)

/-- Python `not x` applied to a request.json.get result: true exactly when
the field is absent or its value is falsy. -/
def pyNot : Option JVal → Bool
  | none => true
  | some v => !v.truthy

/-- The key-value store reached through the Redis client r: a mapping from
keys to values, here the bindings in most-recent-first order. -/
abbrev Store := List (JVal × JVal)

/-- The client call r.set(key, value): unconditionally bind key to value,
replacing any previous binding for that key. -/
def storeSet (st : Store) (k v : JVal) : Store :=
  (k, v) :: List.filter (fun p => p.1 != k) st

/-- The client call r.get(key): the value currently bound to key, or
absent; with decode_responses the client returns the stored value. -/
def storeGet (st : Store) (k : JVal) : Option JVal :=
  (List.find? (fun p => p.1 == k) st).map (fun p => p.2)

/-- A response body: either plain text or a JSON object as produced by
jsonify. -/
inductive Body where
  | text (s : String)
  | json (fields : List (String × JVal))
deriving DecidableEq

/-- An HTTP response: status code paired with the body. Flask's default
status for a bare return value is 200. -/
abbrev Response := Nat × Body

/-- Handler of GET / (index, src/app.py lines 23-26): the fixed greeting.
The store handle is threaded through unchanged, as the handler performs no
client call at all. -/
def index (st : Store) : Response × Store :=
  ((200, Body.text "Hello from Flask app connected to Redis!"), st)

/-- Handler of POST /set (set_value, src/app.py lines 28-36). Reads the
key and value fields of the JSON body; if either is absent or falsy it
answers 400 with the fixed validation error, otherwise it calls
r.set(key, value) and answers 200 with the confirmation message. The third
component records the r.set calls the handler performed, in order. -/
def set_value (st : Store) (body : ReqBody) : Response × Store × List (JVal × JVal) :=
  let key := jsonGet body "key"
  let value := jsonGet body "value"
  if pyNot key || pyNot value then
    ((400, Body.json [("error", JVal.str "Both 'key' and 'value' are required.")]), st, [])
  else
    match key, value with
    | some k, some v =>
        ((200, Body.json [("message", JVal.str ("Set " ++ k.pyStr ++ " = " ++ v.pyStr))]),
          storeSet st k v, [(k, v)])
    | _, _ =>
        ((400, Body.json [("error", JVal.str "Both 'key' and 'value' are required.")]), st, [])

/-- Handler of GET /get/(key) (get_value, src/app.py lines 38-44): query
r.get(key); answer 404 with the fixed error when the store signals absence,
otherwise 200 with the object mapping the literal key to its value. -/
def get_value (st : Store) (key : String) : Response × Store :=
  match storeGet st (JVal.str key) with
  | none => ((404, Body.json [("error", JVal.str "Key not found.")]), st)
  | some value => ((200, Body.json [(key, value)]), st)

/-- The process environment at startup: each variable's value when set. -/
abbrev Env := String → Option String

/-- Python os.environ.get(name, fallback): environment variables are
strings, and the fallback is returned when the variable is unset. -/
def environGet (env : Env) (name fallback : String) : String :=
  (env name).getD fallback

/-- Line 12 of src/app.py: the store host, defaulting to the service name
redis. -/
def redis_host (env : Env) : String :=
  environGet env "REDIS_HOST" "redis"

/-- Line 13 of src/app.py: int(os.environ.get("REDIS_PORT", 6379)). When
unset the default is already the integer 6379; when set, Python int parses
the string (None on a parse failure, where Python would raise). -/
def redis_port (env : Env) : Option Int :=
  match env "REDIS_PORT" with
  | none => some 6379
  | some s => s.trim.toInt?

/-- Line 16 of src/app.py: the listen interface, defaulting to all
interfaces. -/
def bind_host (env : Env) : String :=
  environGet env "LISTEN_HOST" "0.0.0.0"

/-- Line 17 of src/app.py: os.environ.get("LISTEN_PORT", 4000) — the
integer 4000 when unset, otherwise the string from the environment. -/
def bind_port (env : Env) : JVal :=
  match env "LISTEN_PORT" with
  | none => JVal.int 4000
  | some s => JVal.str s

/-- Line 18 of src/app.py: os.environ.get("DEBUG_MODE", "True") is True.
The left operand of is is always a str object — the environment value or
the str fallback "True" — so the identity test against the True singleton
is evaluated on a str. -/
def debug_mode (env : Env) : Bool :=
  JVal.isTrueObject (JVal.str (environGet env "DEBUG_MODE" "True"))

/-- An environment with every variable unset. -/
def emptyEnv : Env := fun _ => none

/-- Helper: on a body carrying non-empty string key and value, set_value
answers 200 with the interpolated message, performs exactly the one call
r.set(key, value), and the store afterwards holds that binding. -/
theorem set_value_str_eq (st : Store) (k v : String) (hk : k ≠ "") (hv : v ≠ "") :
    set_value st [("key", JVal.str k), ("value", JVal.str v)]
      = ((200, Body.json [("message", JVal.str ("Set " ++ k ++ " = " ++ v))]),
         storeSet st (JVal.str k) (JVal.str v), [(JVal.str k, JVal.str v)]) := by
  simp [set_value, jsonGet, pyNot, JVal.truthy, JVal.pyStr, hk, hv]

/-- Helper: reading back the key just written yields the written value. -/
theorem storeGet_set_self (st : Store) (k v : JVal) :
    storeGet (storeSet st k v) k = some v := by
  simp [storeGet, storeSet]

/-- C1: for every non-empty string key and non-empty string value,
performing Set(key, value) and then Get(key) against the same store
returns the value: the Get responds 200 with the body mapping the key to
the value. -/
theorem set_then_get_returns_value (st : Store) (k v : String)
    (hk : k ≠ "") (hv : v ≠ "") :
    (get_value (set_value st [("key", JVal.str k), ("value", JVal.str v)]).2.1 k).1
      = (200, Body.json [(k, JVal.str v)]) := by
  rw [set_value_str_eq st k v hk hv]
  simp [get_value, storeGet_set_self]

/-- Witness for C1 at the concrete pair foo, bar. -/
theorem set_then_get_returns_value_witness :
    (get_value (set_value [] [("key", JVal.str "foo"), ("value", JVal.str "bar")]).2.1 "foo").1
      = (200, Body.json [("foo", JVal.str "bar")]) :=
  set_then_get_returns_value [] "foo" "bar" (by decide) (by decide)

/-- C2: on every body whose key field or value field is absent or falsy
(in particular the empty string), set_value answers 400 with the fixed
validation error, performs no r.set call, and leaves the store unchanged. -/
theorem set_rejects_missing_or_falsy (st : Store) (body : ReqBody)
    (h : pyNot (jsonGet body "key") = true ∨ pyNot (jsonGet body "value") = true) :
    set_value st body
      = ((400, Body.json [("error", JVal.str "Both 'key' and 'value' are required.")]), st, []) := by
  unfold set_value
  rcases h with h | h <;> simp [h]

/-- Witness for C2 at a body with the key field absent. -/
theorem set_rejects_missing_or_falsy_witness :
    set_value [] [("value", JVal.str "bar")]
      = ((400, Body.json [("error", JVal.str "Both 'key' and 'value' are required.")]), [], []) :=
  set_rejects_missing_or_falsy [] [("value", JVal.str "bar")] (Or.inl (by decide))

/-- C3: for every non-empty string key and value, Set answers 200 with the
body mapping message to the interpolated confirmation, after performing
exactly the one call r.set(key, value). -/
theorem set_success_envelope (st : Store) (k v : String)
    (hk : k ≠ "") (hv : v ≠ "") :
    set_value st [("key", JVal.str k), ("value", JVal.str v)]
      = ((200, Body.json [("message", JVal.str ("Set " ++ k ++ " = " ++ v))]),
         storeSet st (JVal.str k) (JVal.str v), [(JVal.str k, JVal.str v)]) :=
  set_value_str_eq st k v hk hv

/-- Witness for C3 at the concrete pair foo, bar. -/
theorem set_success_envelope_witness :
    set_value [] [("key", JVal.str "foo"), ("value", JVal.str "bar")]
      = ((200, Body.json [("message", JVal.str ("Set " ++ "foo" ++ " = " ++ "bar"))]),
         storeSet [] (JVal.str "foo") (JVal.str "bar"), [(JVal.str "foo", JVal.str "bar")]) :=
  set_success_envelope [] "foo" "bar" (by decide) (by decide)

/-- C4: Get(key) answers 200 with the body mapping the key to a value
exactly when the store holds a value for the key, and answers 404 with the
fixed error exactly when the store signals absence; the two outcomes are
mutually exclusive and exhaustive since the store's answer is either a
value or absence. -/
theorem get_found_iff_present (st : Store) (k : String) :
    ((∃ v, storeGet st (JVal.str k) = some v
        ∧ get_value st k = ((200, Body.json [(k, v)]), st))
      ↔ (storeGet st (JVal.str k)).isSome = true)
  ∧ (get_value st k = ((404, Body.json [("error", JVal.str "Key not found.")]), st)
      ↔ storeGet st (JVal.str k) = none) := by
  unfold get_value
  cases h : storeGet st (JVal.str k) <;> simp [h]

/-- C5: for every key (a key is a non-empty text, and an empty key never
reaches the store: the set route rejects it and the get route cannot match
an empty path segment), Set(k, a) then Set(k, b) then Get(k) returns b:
the later Set unconditionally overwrites the earlier binding. -/
theorem set_overwrite_last_wins (st : Store) (k : String) (hk : k ≠ "") :
    (get_value
      (set_value
        (set_value st [("key", JVal.str k), ("value", JVal.str "a")]).2.1
        [("key", JVal.str k), ("value", JVal.str "b")]).2.1 k).1
      = (200, Body.json [(k, JVal.str "b")]) := by
  rw [set_value_str_eq st k "a" hk (by decide)]
  rw [set_value_str_eq _ k "b" hk (by decide)]
  simp [get_value, storeGet_set_self]

/-- Witness for C5 at the concrete key foo. -/
theorem set_overwrite_last_wins_witness :
    (get_value
      (set_value
        (set_value [] [("key", JVal.str "foo"), ("value", JVal.str "a")]).2.1
        [("key", JVal.str "foo"), ("value", JVal.str "b")]).2.1 "foo").1
      = (200, Body.json [("foo", JVal.str "b")]) :=
  set_overwrite_last_wins [] "foo" (by decide)

/-- Helper: writing the same binding twice leaves the store exactly as one
write does. -/
theorem storeSet_idem (st : Store) (k v : JVal) :
    storeSet (storeSet st k v) k v = storeSet st k v := by
  simp [storeSet, List.filter_filter]

/-- C6: calling Set twice with the same non-empty key and value yields the
same final store state as calling it once, and each of the two calls
individually answers with the 200 success envelope. -/
theorem set_idempotent (st : Store) (k v : String) (hk : k ≠ "") (hv : v ≠ "") :
    (set_value (set_value st [("key", JVal.str k), ("value", JVal.str v)]).2.1
        [("key", JVal.str k), ("value", JVal.str v)]).2.1
      = (set_value st [("key", JVal.str k), ("value", JVal.str v)]).2.1
  ∧ (set_value st [("key", JVal.str k), ("value", JVal.str v)]).1
      = (200, Body.json [("message", JVal.str ("Set " ++ k ++ " = " ++ v))])
  ∧ (set_value (set_value st [("key", JVal.str k), ("value", JVal.str v)]).2.1
        [("key", JVal.str k), ("value", JVal.str v)]).1
      = (200, Body.json [("message", JVal.str ("Set " ++ k ++ " = " ++ v))]) := by
  rw [set_value_str_eq st k v hk hv]
  rw [set_value_str_eq _ k v hk hv]
  simp [storeSet_idem]

/-- Witness for C6 at the concrete pair foo, bar. -/
theorem set_idempotent_witness :
    (set_value (set_value [] [("key", JVal.str "foo"), ("value", JVal.str "bar")]).2.1
        [("key", JVal.str "foo"), ("value", JVal.str "bar")]).2.1
      = (set_value [] [("key", JVal.str "foo"), ("value", JVal.str "bar")]).2.1
  ∧ (set_value [] [("key", JVal.str "foo"), ("value", JVal.str "bar")]).1
      = (200, Body.json [("message", JVal.str ("Set " ++ "foo" ++ " = " ++ "bar"))])
  ∧ (set_value (set_value [] [("key", JVal.str "foo"), ("value", JVal.str "bar")]).2.1
        [("key", JVal.str "foo"), ("value", JVal.str "bar")]).1
      = (200, Body.json [("message", JVal.str ("Set " ++ "foo" ++ " = " ++ "bar"))]) :=
  set_idempotent [] "foo" "bar" (by decide) (by decide)

/-- C7: the index route takes no input, always answers 200 with the fixed
static text body, has no effect on the store, and has no failure branch:
its result is this one response for every store state. -/
theorem index_fixed_response (st : Store) :
    index st = ((200, Body.text "Hello from Flask app connected to Redis!"), st) :=
  rfl

/-- C9: handling a Get request never mutates the store: in both the found
and the not-found branch the store afterwards equals the store before. -/
theorem get_never_mutates (st : Store) (k : String) :
    (get_value st k).2 = st := by
  unfold get_value
  cases storeGet st (JVal.str k) <;> rfl

/-- C10: validation checks only truthiness, not type: on a body whose key
and value fields are both present and truthy, of whatever type, set_value
does not reject; it performs the call r.set(key, value) with exactly those
arguments and answers 200 with the interpolated success envelope. -/
theorem set_accepts_truthy_nonstrings (st : Store) (jk jv : JVal)
    (hk : jk.truthy = true) (hv : jv.truthy = true) :
    set_value st [("key", jk), ("value", jv)]
      = ((200, Body.json [("message", JVal.str ("Set " ++ jk.pyStr ++ " = " ++ jv.pyStr))]),
         storeSet st jk jv, [(jk, jv)]) := by
  simp [set_value, jsonGet, pyNot, hk, hv]

/-- Witness for C10 at the JSON numbers 5 and 7: both non-strings pass
validation and reach the store call. -/
theorem set_accepts_truthy_nonstrings_witness :
    set_value [] [("key", JVal.int 5), ("value", JVal.int 7)]
      = ((200, Body.json [("message",
            JVal.str ("Set " ++ (JVal.int 5).pyStr ++ " = " ++ (JVal.int 7).pyStr))]),
         storeSet [] (JVal.int 5) (JVal.int 7), [(JVal.int 5, JVal.int 7)]) :=
  set_accepts_truthy_nonstrings [] (JVal.int 5) (JVal.int 7) (by decide) (by decide)

/-- C8 (code bug at line 18 of src/app.py): with every variable unset the
configuration defaults are the well-known service name redis, store port
6379, listen host 0.0.0.0 (all interfaces) and listen port 4000 — but the
debug flag is False for every environment, even with DEBUG_MODE set to
"True", because the expression tests object identity of a str against the
True singleton instead of comparing against the text "True". -/
theorem config_defaults_and_debug_flag_stuck :
    redis_host emptyEnv = "redis"
  ∧ redis_port emptyEnv = some 6379
  ∧ bind_host emptyEnv = "0.0.0.0"
  ∧ bind_port emptyEnv = JVal.int 4000
  ∧ debug_mode (fun n => if n = "DEBUG_MODE" then some "True" else none) = false
  ∧ (∀ env : Env, debug_mode env = false) :=
  ⟨rfl, rfl, rfl, rfl, rfl, fun _ => rfl⟩
